import Mathlib

set_option maxHeartbeats 1000000

/-!
A shallow embedding of the faas-netes bootstrap (`main.go`): expiry and
license gating, construction of the deployment configuration and the
function factory, informer-factory construction with namespace scoping and
resync interval, informer startup with cache-sync gating, dual-mode
dispatch (imperative controller vs CRD operator), and construction of the
Prometheus metrics query client.

Process execution is modelled as an event trace: starting an informer,
completing a cache sync, a fatal sync failure, wiring the REST handlers,
serving, starting the operator's server, and running the reconcile
controller each append an event.  `log.Fatalf` terminates the process, so
a fatal event ends its trace.
-/

namespace FaasNetes

/-- Probe timing settings (`k8s.ProbeConfig`). -/
structure ProbeConfig where
  initialDelaySeconds : Int
  timeoutSeconds : Int
  periodSeconds : Int
deriving DecidableEq

/-- Process-wide deployment settings (`k8s.DeploymentConfig`). -/
structure DeploymentConfig where
  runtimeHTTPPort : Int
  httpProbe : Bool
  setNonRootUser : Bool
  readinessProbe : ProbeConfig
  livenessProbe : ProbeConfig
  imagePullPolicy : String
  profilesNamespace : String
deriving DecidableEq

/-- The fields of `config.BootstrapConfig` that `main.go` consumes. -/
structure BootstrapConfig where
  defaultFunctionNamespace : String
  clusterRole : Bool
  profilesNamespace : String
  httpProbe : Bool
  setNonRootUser : Bool
  readinessProbeInitialDelaySeconds : Int
  readinessProbeTimeoutSeconds : Int
  readinessProbePeriodSeconds : Int
  livenessProbeInitialDelaySeconds : Int
  livenessProbeTimeoutSeconds : Int
  livenessProbePeriodSeconds : Int
  imagePullPolicy : String
deriving DecidableEq

/-- Go `int32(x)` conversion: two's-complement truncation to 32 bits. -/
def int32cast (x : Int) : Int := (x + 2 ^ 31) % 2 ^ 32 - 2 ^ 31

/-- `main.go` lines 169-185: the `k8s.DeploymentConfig` literal built once at
startup, with `RuntimeHTTPPort: 8080` and the remaining fields taken from the
bootstrap configuration (probe timings through Go `int32` conversions). -/
def mkDeploymentConfig (config : BootstrapConfig) : DeploymentConfig :=
  { runtimeHTTPPort := 8080
    httpProbe := config.httpProbe
    setNonRootUser := config.setNonRootUser
    readinessProbe :=
      { initialDelaySeconds := int32cast config.readinessProbeInitialDelaySeconds
        timeoutSeconds := int32cast config.readinessProbeTimeoutSeconds
        periodSeconds := int32cast config.readinessProbePeriodSeconds }
    livenessProbe :=
      { initialDelaySeconds := int32cast config.livenessProbeInitialDelaySeconds
        timeoutSeconds := int32cast config.livenessProbeTimeoutSeconds
        periodSeconds := int32cast config.livenessProbePeriodSeconds }
    imagePullPolicy := config.imagePullPolicy
    profilesNamespace := config.profilesNamespace }

/-- A shared informer factory, recording the namespace scope and the resync
interval (in seconds) it was created with (`NewSharedInformerFactoryWithOptions`). -/
structure SharedInformerFactory where
  nsScope : String
  resyncSeconds : Nat
deriving DecidableEq

/-- `main.go` line 189: `defaultResync := time.Minute * 5`, in seconds. -/
def defaultResyncSeconds : Nat := 60 * 5

/-- `main.go` lines 191-194: the informer namespace scope is the default
function namespace, widened to the empty (all-namespaces) scope when
`ClusterRole` is set. -/
def namespaceScope (config : BootstrapConfig) : String :=
  if config.clusterRole then "" else config.defaultFunctionNamespace

/-- `k8s.FunctionFactory`: holds the deployment configuration and the profile
lister (recorded by the namespace the profile lister watches). -/
structure FunctionFactory where
  deploymentConfig : DeploymentConfig
  profileListerNamespace : String
deriving DecidableEq

/-- The `serverSetup` value built in `main` and passed to both modes. -/
structure ServerSetup where
  config : BootstrapConfig
  functionFactory : FunctionFactory
  kubeInformerFactory : SharedInformerFactory
  faasInformerFactory : SharedInformerFactory
  profileInformerFactory : SharedInformerFactory
deriving DecidableEq

/-- `main.go` lines 187-217: build the informer factories (kube and faas
factories scoped by `namespaceScope`, the profile factory scoped to
`ProfilesNamespace`, all with the 5-minute default resync), derive the
profile lister from the profile factory, build the function factory, and
assemble the single `serverSetup` value. -/
def mkServerSetup (config : BootstrapConfig) : ServerSetup :=
  let kubeInformerFactory : SharedInformerFactory :=
    { nsScope := namespaceScope config, resyncSeconds := defaultResyncSeconds }
  let faasInformerFactory : SharedInformerFactory :=
    { nsScope := namespaceScope config, resyncSeconds := defaultResyncSeconds }
  let profileInformerFactory : SharedInformerFactory :=
    { nsScope := config.profilesNamespace, resyncSeconds := defaultResyncSeconds }
  let factory : FunctionFactory :=
    { deploymentConfig := mkDeploymentConfig config
      profileListerNamespace := profileInformerFactory.nsScope }
  { config := config
    functionFactory := factory
    kubeInformerFactory := kubeInformerFactory
    faasInformerFactory := faasInformerFactory
    profileInformerFactory := profileInformerFactory }

/-- The four resource kinds mirrored by the cache layer. -/
inductive Kind
  | functions
  | deployments
  | endpoints
  | profiles
deriving DecidableEq

/-- Which shared informer factory each kind's informer is created from:
Functions from the faas factory, Deployments and Endpoints from the kube
factory, Profiles from the profile factory. -/
def informerFactoryFor (setup : ServerSetup) : Kind → SharedInformerFactory
  | Kind.functions => setup.faasInformerFactory
  | Kind.deployments => setup.kubeInformerFactory
  | Kind.endpoints => setup.kubeInformerFactory
  | Kind.profiles => setup.profileInformerFactory

/-- Observable bootstrap events. -/
inductive Event
  | informerStart (k : Kind) (factory : SharedInformerFactory)
  | cacheSynced (k : Kind)
  | fatalSyncFailed
  | wireHandlers
  | serve
  | newController
  | operatorServerStart
  | controllerRun (workers : Nat)
deriving DecidableEq

/-- The informer kinds `startInformers` starts, in source order
(`main.go` lines 249-292): Functions only when in operator mode, then
Deployments, Endpoints and Profiles in every mode. -/
def syncKinds (operator : Bool) : List Kind :=
  (if operator then [Kind.functions] else []) ++
    [Kind.deployments, Kind.endpoints, Kind.profiles]

/-- Start the informers for the given kinds in order.  Each informer is
started and then its cache sync is awaited; a failed sync is fatal
(`log.Fatalf`), ending the trace.  Returns the trace and whether every
started informer synced. -/
def startInformersTrace (setup : ServerSetup) :
    List Kind → (Kind → Bool) → List Event × Bool
  | [], _ => ([], true)
  | k :: ks, syncs =>
    if syncs k then
      let rest := startInformersTrace setup ks syncs
      (Event.informerStart k (informerFactoryFor setup k) ::
        Event.cacheSynced k :: rest.1, rest.2)
    else
      ([Event.informerStart k (informerFactoryFor setup k),
        Event.fatalSyncFailed], false)

/-- `startInformers` (`main.go` lines 249-292). -/
def startInformers (setup : ServerSetup) (operator : Bool)
    (syncs : Kind → Bool) : List Event × Bool :=
  startInformersTrace setup (syncKinds operator) syncs

/-- The router's function lookup (`k8s.NewFunctionLookup`), recording the
default namespace it resolves unqualified names against and the scope of the
endpoints lister it reads. -/
structure FunctionLookup where
  defaultNamespace : String
  endpointsListerScope : String
deriving DecidableEq

/-- The REST wiring built by the imperative controller
(`main.go` lines 305-320), restricted to the fields the claims are about. -/
structure ControllerWiring where
  functionLookup : FunctionLookup
  deleteHandlerNamespace : String
  deployHandlerNamespace : String
  deployHandlerFactory : FunctionFactory
  updateHandlerNamespace : String
  updateHandlerFactory : FunctionFactory
  listNamespacesClusterRole : Bool
deriving DecidableEq

/-- `main.go` lines 305-320: the function lookup is built with the configured
default function namespace and the endpoints lister; the deploy and update
handlers are built with the default function namespace and the shared
function factory. -/
def mkControllerWiring (setup : ServerSetup) : ControllerWiring :=
  { functionLookup :=
      { defaultNamespace := setup.config.defaultFunctionNamespace
        endpointsListerScope := setup.kubeInformerFactory.nsScope }
    deleteHandlerNamespace := setup.config.defaultFunctionNamespace
    deployHandlerNamespace := setup.config.defaultFunctionNamespace
    deployHandlerFactory := setup.functionFactory
    updateHandlerNamespace := setup.config.defaultFunctionNamespace
    updateHandlerFactory := setup.functionFactory
    listNamespacesClusterRole := setup.config.clusterRole }

/-- The operator wraps the shared function factory with its own type
(`controller.FunctionFactory{Factory: setup.functionFactory}`). -/
structure OperatorFunctionFactory where
  factory : FunctionFactory
deriving DecidableEq

/-- What `runOperator` wires (`main.go` lines 326-359): the wrapped factory
handed to `controller.NewController` and the worker count passed to
`ctrl.Run`. -/
structure OperatorWiring where
  controllerFactory : OperatorFunctionFactory
  workers : Nat
deriving DecidableEq

/-- `main.go` lines 345-356: the controller is built over the shared factory
and run with the literal worker count `1` (`ctrl.Run(1, stopCh)`). -/
def mkOperatorWiring (setup : ServerSetup) : OperatorWiring :=
  { controllerFactory := { factory := setup.functionFactory }
    workers := 1 }

/-- `runController` (`main.go` lines 295-323): start the informers in
imperative mode; only if every cache synced, wire the REST handlers and
serve. -/
def runController (setup : ServerSetup) (syncs : Kind → Bool) :
    List Event × Option ControllerWiring :=
  let started := startInformers setup false syncs
  if started.2 then
    (started.1 ++ [Event.wireHandlers, Event.serve],
      some (mkControllerWiring setup))
  else
    (started.1, none)

/-- `runOperator` (`main.go` lines 326-359): start the informers in operator
mode; only if every cache synced, build the reconcile controller, start the
operator's server, and run the controller with 1 worker. -/
def runOperator (setup : ServerSetup) (syncs : Kind → Bool) :
    List Event × Option OperatorWiring :=
  let started := startInformers setup true syncs
  if started.2 then
    (started.1 ++
      [Event.newController, Event.operatorServerStart, Event.controllerRun 1],
      some (mkOperatorWiring setup))
  else
    (started.1, none)

/-- `main.go` lines 234-240: dispatch on the `-operator` flag. -/
def mainTrace (operator : Bool) (setup : ServerSetup)
    (syncs : Kind → Bool) : List Event :=
  if operator then (runOperator setup syncs).1
  else (runController setup syncs).1

/-- Events that wire or start a handler, router, server or reconciler. -/
def wiringEvent : Event → Bool
  | Event.wireHandlers => true
  | Event.serve => true
  | Event.newController => true
  | Event.operatorServerStart => true
  | Event.controllerRun _ => true
  | _ => false

/-- The kinds whose informers a trace starts, in order. -/
def startedKinds (tr : List Event) : List Kind :=
  tr.filterMap fun e =>
    match e with
    | Event.informerStart k _ => some k
    | _ => none

/-! ## License and expiry gating (`main.go` lines 60-136) -/

/-- The license token (`licensev1.LicenseToken`), restricted to the fields
`main.go` consumes. -/
structure LicenseToken where
  name : String
  email : String
  products : List String
deriving DecidableEq

/-- `main.go` line 53. -/
def sku : String := "openfaas-pro"

/-- `hasProduct` (`main.go` lines 60-67). -/
def hasProduct (s : String) : List String → Bool
  | [] => false
  | p :: rest => if p = s then true else hasProduct s rest

/-- `time.Date(2022, time.March, 14, 0, 0, 0, 0, time.UTC)` as Unix
nanoseconds (1647216000 s since the epoch). -/
def demoExpiryUnixNano : Int := 1647216000 * 1000000000

/-- How the prologue of `main` ends: one of the fatal/panic/exit paths, or
proceeding (past line 136) to contact the cluster with a verified token. -/
inductive StartOutcome
  | fatalExpired
  | fatalNoLicense
  | panicReadFile
  | panicEmptyLicense
  | exitInvalidToken
  | panicWrongProduct
  | proceed (token : LicenseToken)
deriving DecidableEq

/-- `main.go` lines 81-136: the expiry check (`time.Now().After(...)` is a
strict comparison), the flag-presence check, the optional license-file read
(trimmed), the emptiness re-check, `licensev1.LoadLicenseToken` (abstracted
as a function returning `none` on a verification error), and the product
check.  `now` is Unix nanoseconds. -/
def mainPrologue (now : Int) (license licenseFile : String)
    (readFile : String → Option String)
    (loadLicenseToken : String → Option LicenseToken) : StartOutcome :=
  if demoExpiryUnixNano < now then StartOutcome.fatalExpired
  else if license.length = 0 ∧ licenseFile.length = 0 then
    StartOutcome.fatalNoLicense
  else
    let effective : Option String :=
      if 0 < licenseFile.length then
        match readFile licenseFile with
        | none => none
        | some res => some res.trim
      else some license
    match effective with
    | none => StartOutcome.panicReadFile
    | some lic =>
      if lic.length = 0 then StartOutcome.panicEmptyLicense
      else
        match loadLicenseToken lic with
        | none => StartOutcome.exitInvalidToken
        | some token =>
          if hasProduct sku token.products then StartOutcome.proceed token
          else StartOutcome.panicWrongProduct

/-! ## Prometheus client construction (`main.go` lines 219-232) -/

/-- The metrics query client (`k8s.NewPrometheusQuery`). -/
structure PrometheusQuery where
  host : String
  port : Int
deriving DecidableEq

/-- Decimal digit test, as in Go `strconv`. -/
def isDigitChar (c : Char) : Bool := decide ('0' ≤ c) && decide (c ≤ '9')

/-- Value of a list of decimal digits. -/
def digitsToNat (ds : List Char) : Nat :=
  ds.foldl (fun n c => n * 10 + (c.toNat - 48)) 0

def maxInt64 : Int := 2 ^ 63 - 1

def minInt64 : Int := -(2 ^ 63)

/-- Whether a string is an optional sign followed by at least one decimal
digit: exactly the strings Go `strconv.Atoi` parses without a SYNTAX error. -/
def wellFormedInt (s : String) : Bool :=
  match s.data with
  | [] => false
  | c :: rest =>
    let ds := if c = '-' ∨ c = '+' then rest else c :: rest
    !ds.isEmpty && ds.all isDigitChar

/-- Go `strconv.Atoi` on a 64-bit platform: on a syntax error it returns
`(0, error)`; on a value outside the int64 range it returns the clamped
bound with a range error; otherwise the parsed value.  The boolean is
`true` exactly when no error is returned. -/
def goAtoi (s : String) : Int × Bool :=
  if wellFormedInt s then
    match s.data with
    | [] => (0, false)
    | c :: rest =>
      let ds := if c = '-' ∨ c = '+' then rest else c :: rest
      let v : Int :=
        if c = '-' then -(digitsToNat ds : Int) else (digitsToNat ds : Int)
      if v < minInt64 then (minInt64, false)
      else if maxInt64 < v then (maxInt64, false)
      else (v, true)
  else (0, false)

/-- `main.go` lines 219-232: host and port default to `"prometheus"` and
`9090`; a set, non-empty `prometheus_host` overrides the host, and a set,
non-empty `prometheus_port` is passed through `strconv.Atoi` with the error
discarded (`prometheusPort, _ = strconv.Atoi(v)`). -/
def mkPrometheusQuery (hostEnv portEnv : Option String) : PrometheusQuery :=
  let host :=
    match hostEnv with
    | some v => if 0 < v.length then v else "prometheus"
    | none => "prometheus"
  let port :=
    match portEnv with
    | some v => if 0 < v.length then (goAtoi v).1 else 9090
    | none => 9090
  { host := host, port := port }

/-! ## Concrete sample inputs used by witnesses and counterexamples -/

/-- A sample bootstrap configuration (the chart defaults). -/
def cfgA : BootstrapConfig :=
  { defaultFunctionNamespace := "openfaas-fn"
    clusterRole := false
    profilesNamespace := "openfaas"
    httpProbe := true
    setNonRootUser := false
    readinessProbeInitialDelaySeconds := 2
    readinessProbeTimeoutSeconds := 1
    readinessProbePeriodSeconds := 2
    livenessProbeInitialDelaySeconds := 2
    livenessProbeTimeoutSeconds := 1
    livenessProbePeriodSeconds := 2
    imagePullPolicy := "Always" }

/-- A second sample configuration, differing from `cfgA` in every field that
could plausibly drive a worker count. -/
def cfgB : BootstrapConfig :=
  { defaultFunctionNamespace := "fn"
    clusterRole := true
    profilesNamespace := "profiles"
    httpProbe := false
    setNonRootUser := true
    readinessProbeInitialDelaySeconds := 5
    readinessProbeTimeoutSeconds := 3
    readinessProbePeriodSeconds := 7
    livenessProbeInitialDelaySeconds := 5
    livenessProbeTimeoutSeconds := 3
    livenessProbePeriodSeconds := 7
    imagePullPolicy := "IfNotPresent" }

/-- All cache syncs succeed. -/
def allSync : Kind → Bool := fun _ => true

/-- Every cache syncs except the endpoints cache. -/
def syncsNoEndpoints : Kind → Bool
  | Kind.endpoints => false
  | _ => true

/-- A sample verified token licensed for the pro product. -/
def tokenPro : LicenseToken :=
  { name := "Acme", email := "ops@acme.example", products := ["openfaas-pro"] }

/-- A sample verifier accepting exactly the literal license `"LIC"`. -/
def loadA : String → Option LicenseToken :=
  fun s => if s = "LIC" then some tokenPro else none

/-! ## Helper lemmas about informer startup traces -/

/-- No event of an informer-startup trace wires a handler, router, server or
reconciler. -/
theorem startTrace_no_wiring (setup : ServerSetup) :
    ∀ (ks : List Kind) (syncs : Kind → Bool),
      ∀ e ∈ (startInformersTrace setup ks syncs).1, wiringEvent e = false := by
  intro ks
  induction ks with
  | nil =>
    intro syncs e he
    simp [startInformersTrace] at he
  | cons k ks ih =>
    intro syncs e he
    cases h : syncs k with
    | true =>
      simp only [startInformersTrace, h, if_true, List.mem_cons] at he
      rcases he with he | he | he
      · subst he; rfl
      · subst he; rfl
      · exact ih syncs e he
    | false =>
      simp only [startInformersTrace, h, Bool.false_eq_true, if_false,
        List.mem_cons, List.not_mem_nil, or_false] at he
      rcases he with he | he
      · subst he; rfl
      · subst he; rfl

/-- If every kind in the list syncs, the startup trace reports success. -/
theorem startTrace_snd_iff (setup : ServerSetup) :
    ∀ (ks : List Kind) (syncs : Kind → Bool),
      (startInformersTrace setup ks syncs).2 = true ↔
        ∀ k ∈ ks, syncs k = true := by
  intro ks
  induction ks with
  | nil =>
    intro syncs
    simp [startInformersTrace]
  | cons k ks ih =>
    intro syncs
    cases h : syncs k with
    | true =>
      simp only [startInformersTrace, h, if_true, List.mem_cons]
      constructor
      · intro hrest k' hk'
        rcases hk' with hk' | hk'
        · subst hk'; exact h
        · exact (ih syncs).mp hrest k' hk'
      · intro hall
        exact (ih syncs).mpr fun k' hk' => hall k' (Or.inr hk')
    | false =>
      simp only [startInformersTrace, h, Bool.false_eq_true, if_false]
      constructor
      · intro hfalse; exact absurd hfalse (by simp)
      · intro hall; exact absurd (hall k (List.mem_cons_self k ks)) (by simp [h])

/-- On a fully successful startup, every requested kind's cache-synced event
is in the trace. -/
theorem startTrace_synced_mem (setup : ServerSetup) :
    ∀ (ks : List Kind) (syncs : Kind → Bool),
      (startInformersTrace setup ks syncs).2 = true →
      ∀ k ∈ ks, Event.cacheSynced k ∈ (startInformersTrace setup ks syncs).1 := by
  intro ks
  induction ks with
  | nil =>
    intro syncs _ k hk
    simp at hk
  | cons k ks ih =>
    intro syncs hsnd k' hk'
    cases h : syncs k with
    | true =>
      simp only [startInformersTrace, h, if_true] at hsnd ⊢
      rcases List.mem_cons.mp hk' with hk'' | hk''
      · subst hk''; simp
      · simp only [List.mem_cons]
        exact Or.inr (Or.inr (ih syncs hsnd k' hk''))
    | false =>
      simp only [startInformersTrace, h, Bool.false_eq_true, if_false] at hsnd

/-- If some requested kind fails to sync, the fatal event is in the trace. -/
theorem startTrace_fatal_mem (setup : ServerSetup) :
    ∀ (ks : List Kind) (syncs : Kind → Bool),
      (∃ k ∈ ks, syncs k = false) →
      Event.fatalSyncFailed ∈ (startInformersTrace setup ks syncs).1 := by
  intro ks
  induction ks with
  | nil =>
    rintro syncs ⟨k, hk, -⟩
    simp at hk
  | cons k ks ih =>
    rintro syncs ⟨k', hk', hfail⟩
    cases h : syncs k with
    | true =>
      have hk'' : k' ∈ ks := by
        rcases List.mem_cons.mp hk' with rfl | hmem
        · rw [h] at hfail; cases hfail
        · exact hmem
      simp only [startInformersTrace, h, if_true, List.mem_cons]
      exact Or.inr (Or.inr (ih syncs ⟨k', hk'', hfail⟩))
    | false =>
      simp [startInformersTrace, h]

/-- Every informer-start event in a startup trace carries the factory that
`informerFactoryFor` assigns to its kind. -/
theorem startTrace_factory (setup : ServerSetup) :
    ∀ (ks : List Kind) (syncs : Kind → Bool) (k : Kind)
      (f : SharedInformerFactory),
      Event.informerStart k f ∈ (startInformersTrace setup ks syncs).1 →
      f = informerFactoryFor setup k := by
  intro ks
  induction ks with
  | nil =>
    intro syncs k f h
    simp [startInformersTrace] at h
  | cons k0 ks ih =>
    intro syncs k f h
    cases hs : syncs k0 with
    | true =>
      simp only [startInformersTrace, hs, if_true, List.mem_cons] at h
      rcases h with h | h | h
      · injection h with h1 h2
        subst h1; subst h2; rfl
      · cases h
      · exact ih syncs k f h
    | false =>
      simp only [startInformersTrace, hs, Bool.false_eq_true, if_false,
        List.mem_cons, List.not_mem_nil, or_false] at h
      rcases h with h | h
      · injection h with h1 h2
        subst h1; subst h2; rfl
      · cases h

/-- Splitting a concatenation at an element absent from the left part: the
left part is contained in the decomposition's own left part. -/
theorem mem_left_of_decomp {α : Type} (e : α) :
    ∀ (a pre post b : List α), a ++ b = pre ++ e :: post → e ∉ a →
      ∀ x ∈ a, x ∈ pre := by
  intro a
  induction a with
  | nil =>
    intro pre post b _ _ x hx
    simp at hx
  | cons y a ih =>
    intro pre post b hd hna x hx
    cases pre with
    | nil =>
      simp only [List.cons_append, List.nil_append] at hd
      injection hd with hye _
      exact absurd (hye ▸ List.mem_cons_self y a) hna
    | cons z pre =>
      simp only [List.cons_append] at hd
      injection hd with hyz hrest
      have hna' : e ∉ a := fun hmem => hna (List.mem_cons_of_mem y hmem)
      rcases List.mem_cons.mp hx with rfl | hmem
      · rw [hyz]; exact List.mem_cons_self z pre
      · exact List.mem_cons_of_mem z (ih pre post b hrest hna' x hmem)

/-- The trace of `runController`, as an explicit conditional. -/
theorem runController_fst (setup : ServerSetup) (syncs : Kind → Bool) :
    (runController setup syncs).1 =
      if (startInformers setup false syncs).2 then
        (startInformers setup false syncs).1 ++ [Event.wireHandlers, Event.serve]
      else (startInformers setup false syncs).1 := by
  cases h : (startInformers setup false syncs).2 <;> simp [runController, h]

/-- The trace of `runOperator`, as an explicit conditional. -/
theorem runOperator_fst (setup : ServerSetup) (syncs : Kind → Bool) :
    (runOperator setup syncs).1 =
      if (startInformers setup true syncs).2 then
        (startInformers setup true syncs).1 ++
          [Event.newController, Event.operatorServerStart, Event.controllerRun 1]
      else (startInformers setup true syncs).1 := by
  cases h : (startInformers setup true syncs).2 <;> simp [runOperator, h]

/-- Sync gating for any run shaped as informer startup followed by wiring:
a failed sync yields a fatal trace with nothing wired, and any wiring event
is preceded by every requested kind's cache sync. -/
theorem run_gate (setup : ServerSetup) (op : Bool) (syncs : Kind → Bool)
    (tail tr : List Event)
    (htr : tr =
      if (startInformers setup op syncs).2 then
        (startInformers setup op syncs).1 ++ tail
      else (startInformers setup op syncs).1) :
    ((∃ k ∈ syncKinds op, syncs k = false) →
      Event.fatalSyncFailed ∈ tr ∧ ∀ e ∈ tr, wiringEvent e = false) ∧
    (∀ pre e post, tr = pre ++ e :: post → wiringEvent e = true →
      ∀ k ∈ syncKinds op, Event.cacheSynced k ∈ pre) := by
  have hsnd := startTrace_snd_iff setup (syncKinds op) syncs
  constructor
  · rintro ⟨k, hk, hfail⟩
    have hfalse : (startInformers setup op syncs).2 = false := by
      cases hb : (startInformers setup op syncs).2 with
      | true =>
        have := (hsnd.mp hb) k hk
        rw [this] at hfail
        cases hfail
      | false => rfl
    rw [htr, hfalse]
    simp only [Bool.false_eq_true, if_false]
    exact ⟨startTrace_fatal_mem setup (syncKinds op) syncs ⟨k, hk, hfail⟩,
      startTrace_no_wiring setup (syncKinds op) syncs⟩
  · intro pre e post hdecomp hwire k hk
    cases hb : (startInformers setup op syncs).2 with
    | false =>
      rw [htr, hb] at hdecomp
      simp only [Bool.false_eq_true, if_false] at hdecomp
      have hmem : e ∈ (startInformers setup op syncs).1 := by
        rw [hdecomp]
        exact List.mem_append_right pre (List.mem_cons_self e post)
      have := startTrace_no_wiring setup (syncKinds op) syncs e hmem
      rw [this] at hwire
      cases hwire
    | true =>
      rw [htr, hb] at hdecomp
      simp only [if_true] at hdecomp
      have hna : e ∉ (startInformers setup op syncs).1 := by
        intro hmem
        have := startTrace_no_wiring setup (syncKinds op) syncs e hmem
        rw [this] at hwire
        cases hwire
      have hsub := mem_left_of_decomp e (startInformers setup op syncs).1
        pre post tail hdecomp hna
      exact hsub (Event.cacheSynced k)
        (startTrace_synced_mem setup (syncKinds op) syncs hb k hk)

/-- Any worker count passed to the reconcile controller's run inside the
operator trace is the literal 1. -/
theorem controllerRun_workers (setup : ServerSetup) (syncs : Kind → Bool)
    (w : Nat) (h : Event.controllerRun w ∈ (runOperator setup syncs).1) :
    w = 1 := by
  rw [runOperator_fst] at h
  cases hb : (startInformers setup true syncs).2 with
  | false =>
    rw [hb] at h
    simp only [Bool.false_eq_true, if_false] at h
    have := startTrace_no_wiring setup (syncKinds true) syncs _ h
    simp [wiringEvent] at this
  | true =>
    rw [hb] at h
    simp only [if_true] at h
    rcases List.mem_append.mp h with h | h
    · have := startTrace_no_wiring setup (syncKinds true) syncs _ h
      simp [wiringEvent] at this
    · simp only [List.mem_cons, List.not_mem_nil, or_false] at h
      rcases h with h | h | h
      · cases h
      · cases h
      · injection h

/-- Every informer-start event in either mode's trace carries the factory
assigned to its kind by `informerFactoryFor`. -/
theorem mainTrace_factory (operator : Bool) (setup : ServerSetup)
    (syncs : Kind → Bool) (k : Kind) (f : SharedInformerFactory)
    (h : Event.informerStart k f ∈ mainTrace operator setup syncs) :
    f = informerFactoryFor setup k := by
  cases operator with
  | false =>
    rw [mainTrace, if_neg (by simp)] at h
    rw [runController_fst] at h
    cases hb : (startInformers setup false syncs).2 with
    | false =>
      rw [hb] at h
      simp only [Bool.false_eq_true, if_false] at h
      exact startTrace_factory setup (syncKinds false) syncs k f h
    | true =>
      rw [hb] at h
      simp only [if_true] at h
      rcases List.mem_append.mp h with h | h
      · exact startTrace_factory setup (syncKinds false) syncs k f h
      · simp at h
  | true =>
    rw [mainTrace, if_pos rfl] at h
    rw [runOperator_fst] at h
    cases hb : (startInformers setup true syncs).2 with
    | false =>
      rw [hb] at h
      simp only [Bool.false_eq_true, if_false] at h
      exact startTrace_factory setup (syncKinds true) syncs k f h
    | true =>
      rw [hb] at h
      simp only [if_true] at h
      rcases List.mem_append.mp h with h | h
      · exact startTrace_factory setup (syncKinds true) syncs k f h
      · simp at h

/-! ## Claim theorems -/

/-- Claim C1, counterexample: on a concrete startup in imperative
(controller) mode with every cache syncing, the Function informer is never
started — the started kinds do not include `Kind.functions`, so the cache
layer does not mirror all four resource kinds in every operating mode. -/
theorem C1_counterexample :
    Kind.functions ∉
      startedKinds (runController (mkServerSetup cfgA) allSync).1 := by
  decide

/-- Claim C1, amended: `startInformers` starts and syncs the Deployment,
Endpoints and Profile informers in every mode, but the Function informer
only in operator mode; so all four resource kinds are mirrored only in
operator mode, and imperative mode mirrors exactly three. -/
theorem C1_informer_kinds (setup : ServerSetup) (syncs : Kind → Bool)
    (hs : ∀ k, syncs k = true) :
    startedKinds (runOperator setup syncs).1 =
      [Kind.functions, Kind.deployments, Kind.endpoints, Kind.profiles] ∧
    startedKinds (runController setup syncs).1 =
      [Kind.deployments, Kind.endpoints, Kind.profiles] := by
  constructor <;>
    simp [runOperator, runController, startInformers, syncKinds,
      startInformersTrace, hs, startedKinds]

/-- Claim C1, witness: the amended statement evaluated on the sample
configuration with every cache syncing. -/
theorem C1_informer_kinds_witness :
    startedKinds (runOperator (mkServerSetup cfgA) allSync).1 =
      [Kind.functions, Kind.deployments, Kind.endpoints, Kind.profiles] ∧
    startedKinds (runController (mkServerSetup cfgA) allSync).1 =
      [Kind.deployments, Kind.endpoints, Kind.profiles] :=
  C1_informer_kinds (mkServerSetup cfgA) allSync (fun _ => rfl)

/-- Claim C2: for every started informer, a failed initial cache sync makes
the trace fatal with no handler, router, server or reconciler event at all;
and in any trace, every wiring event is preceded by the cache-synced event
of every started informer kind. -/
theorem C2_sync_gate (operator : Bool) (setup : ServerSetup)
    (syncs : Kind → Bool) :
    ((∃ k ∈ syncKinds operator, syncs k = false) →
      Event.fatalSyncFailed ∈ mainTrace operator setup syncs ∧
      ∀ e ∈ mainTrace operator setup syncs, wiringEvent e = false) ∧
    (∀ pre e post, mainTrace operator setup syncs = pre ++ e :: post →
      wiringEvent e = true →
      ∀ k ∈ syncKinds operator, Event.cacheSynced k ∈ pre) := by
  cases operator with
  | false =>
    refine run_gate setup false syncs [Event.wireHandlers, Event.serve]
      (mainTrace false setup syncs) ?_
    rw [mainTrace, if_neg (by simp)]
    exact runController_fst setup syncs
  | true =>
    refine run_gate setup true syncs
      [Event.newController, Event.operatorServerStart, Event.controllerRun 1]
      (mainTrace true setup syncs) ?_
    rw [mainTrace, if_pos rfl]
    exact runOperator_fst setup syncs

/-- Claim C2, witness: in imperative mode on the sample configuration with
the endpoints cache failing to sync, the trace is fatal and wires nothing. -/
theorem C2_sync_gate_witness :
    Event.fatalSyncFailed ∈
      mainTrace false (mkServerSetup cfgA) syncsNoEndpoints ∧
    ∀ e ∈ mainTrace false (mkServerSetup cfgA) syncsNoEndpoints,
      wiringEvent e = false :=
  (C2_sync_gate false (mkServerSetup cfgA) syncsNoEndpoints).1
    ⟨Kind.endpoints, by decide, by decide⟩

/-- Claim C3: the bootstrap dispatches on the operator flag to exactly one
of the two modes; the imperative mode wires the REST handlers and serves
with no reconcile-controller run, the operator mode builds and runs the
reconcile controller without wiring the imperative REST handlers; and both
modes draw the deploy/update factories from the one `serverSetup` value's
shared function factory. -/
theorem C3_dual_mode (cfg : BootstrapConfig) (syncs : Kind → Bool)
    (hs : ∀ k, syncs k = true) :
    mainTrace false (mkServerSetup cfg) syncs =
      (runController (mkServerSetup cfg) syncs).1 ∧
    mainTrace true (mkServerSetup cfg) syncs =
      (runOperator (mkServerSetup cfg) syncs).1 ∧
    Event.wireHandlers ∈ mainTrace false (mkServerSetup cfg) syncs ∧
    Event.serve ∈ mainTrace false (mkServerSetup cfg) syncs ∧
    (∀ w, Event.controllerRun w ∉ mainTrace false (mkServerSetup cfg) syncs) ∧
    Event.newController ∈ mainTrace true (mkServerSetup cfg) syncs ∧
    Event.controllerRun 1 ∈ mainTrace true (mkServerSetup cfg) syncs ∧
    Event.wireHandlers ∉ mainTrace true (mkServerSetup cfg) syncs ∧
    (runController (mkServerSetup cfg) syncs).2 =
      some (mkControllerWiring (mkServerSetup cfg)) ∧
    (runOperator (mkServerSetup cfg) syncs).2 =
      some (mkOperatorWiring (mkServerSetup cfg)) ∧
    (mkControllerWiring (mkServerSetup cfg)).deployHandlerFactory =
      (mkServerSetup cfg).functionFactory ∧
    (mkControllerWiring (mkServerSetup cfg)).updateHandlerFactory =
      (mkServerSetup cfg).functionFactory ∧
    (mkOperatorWiring (mkServerSetup cfg)).controllerFactory.factory =
      (mkServerSetup cfg).functionFactory := by
  refine ⟨by simp [mainTrace], by simp [mainTrace], ?_, ?_, ?_, ?_, ?_, ?_,
    ?_, ?_, rfl, rfl, rfl⟩ <;>
    simp [mainTrace, runController, runOperator, startInformers, syncKinds,
      startInformersTrace, hs]

/-- Claim C3, witness: the dual-mode wiring evaluated on the sample
configuration with every cache syncing. -/
theorem C3_dual_mode_witness :
    Event.wireHandlers ∈ mainTrace false (mkServerSetup cfgA) allSync ∧
    Event.controllerRun 1 ∈ mainTrace true (mkServerSetup cfgA) allSync :=
  ⟨(C3_dual_mode cfgA allSync (fun _ => rfl)).2.2.1,
    (C3_dual_mode cfgA allSync (fun _ => rfl)).2.2.2.2.2.2.1⟩

/-- Claim C4: with cluster-wide scope the kube and faas informer factories
are created with the empty (all-namespaces) scope, otherwise with the
configured default function namespace; and the imperative router's function
lookup is always constructed with the configured default function
namespace. -/
theorem C4_namespace_scope (cfg : BootstrapConfig) :
    (cfg.clusterRole = true →
      (mkServerSetup cfg).kubeInformerFactory.nsScope = "" ∧
      (mkServerSetup cfg).faasInformerFactory.nsScope = "") ∧
    (cfg.clusterRole = false →
      (mkServerSetup cfg).kubeInformerFactory.nsScope =
        cfg.defaultFunctionNamespace ∧
      (mkServerSetup cfg).faasInformerFactory.nsScope =
        cfg.defaultFunctionNamespace) ∧
    (mkControllerWiring (mkServerSetup cfg)).functionLookup.defaultNamespace =
      cfg.defaultFunctionNamespace := by
  refine ⟨fun h => ?_, fun h => ?_, rfl⟩ <;>
    simp [mkServerSetup, namespaceScope, h]

/-- Claim C4, witness: the scoping evaluated on the cluster-wide sample
configuration and on the namespaced sample configuration. -/
theorem C4_namespace_scope_witness :
    ((mkServerSetup cfgB).kubeInformerFactory.nsScope = "" ∧
      (mkServerSetup cfgB).faasInformerFactory.nsScope = "") ∧
    ((mkServerSetup cfgA).kubeInformerFactory.nsScope = "openfaas-fn" ∧
      (mkServerSetup cfgA).faasInformerFactory.nsScope = "openfaas-fn") :=
  ⟨(C4_namespace_scope cfgB).1 rfl, (C4_namespace_scope cfgA).2.1 rfl⟩

/-- Claim C5, counterexample: the worker count handed to the reconcile
controller's run is not determined by the configuration — no choice of
configuration (or sync outcome) ever yields a controller run with a worker
count other than the literal 1. -/
theorem C5_counterexample :
    ¬ ∃ (c1 c2 : BootstrapConfig) (s1 s2 : Kind → Bool) (w1 w2 : Nat),
        Event.controllerRun w1 ∈ (runOperator (mkServerSetup c1) s1).1 ∧
        Event.controllerRun w2 ∈ (runOperator (mkServerSetup c2) s2).1 ∧
        w1 ≠ w2 := by
  rintro ⟨c1, c2, s1, s2, w1, w2, h1, h2, hne⟩
  exact hne ((controllerRun_workers (mkServerSetup c1) s1 w1 h1).trans
    (controllerRun_workers (mkServerSetup c2) s2 w2 h2).symm)

/-- Claim C5, amended: in operator mode the bootstrap passes the hard-coded
literal 1 as the worker count to the reconcile controller's run, for every
configuration — the worker pool is a single worker, not configurable, so
reconciles are fully serialized. -/
theorem C5_worker_count (cfg : BootstrapConfig) (syncs : Kind → Bool) :
    (mkOperatorWiring (mkServerSetup cfg)).workers = 1 ∧
    ∀ w, Event.controllerRun w ∈ (runOperator (mkServerSetup cfg) syncs).1 →
      w = 1 :=
  ⟨rfl, fun w h => controllerRun_workers (mkServerSetup cfg) syncs w h⟩

/-- Claim C5, witness: the amended statement evaluated on the sample
configuration, with the controller-run event concretely in the trace. -/
theorem C5_worker_count_witness :
    (mkOperatorWiring (mkServerSetup cfgA)).workers = 1 ∧ (1 : Nat) = 1 :=
  ⟨(C5_worker_count cfgA allSync).1,
    (C5_worker_count cfgA allSync).2 1 (by decide)⟩

/-- Claim C6: the deployment configuration handed to the function factory is
the one built once at startup, with `RuntimeHTTPPort` fixed at 8080 and the
probe timings, HTTP-probe toggle, non-root enforcement, image pull policy
and profiles namespace taken from the startup configuration; the deploy and
update handlers of imperative mode and the operator's wrapped factory all
carry that same value. -/
theorem C6_deployment_config (cfg : BootstrapConfig) :
    (mkServerSetup cfg).functionFactory.deploymentConfig =
      mkDeploymentConfig cfg ∧
    (mkDeploymentConfig cfg).runtimeHTTPPort = 8080 ∧
    (mkDeploymentConfig cfg).httpProbe = cfg.httpProbe ∧
    (mkDeploymentConfig cfg).setNonRootUser = cfg.setNonRootUser ∧
    (mkDeploymentConfig cfg).imagePullPolicy = cfg.imagePullPolicy ∧
    (mkDeploymentConfig cfg).profilesNamespace = cfg.profilesNamespace ∧
    (mkDeploymentConfig cfg).readinessProbe =
      { initialDelaySeconds := int32cast cfg.readinessProbeInitialDelaySeconds
        timeoutSeconds := int32cast cfg.readinessProbeTimeoutSeconds
        periodSeconds := int32cast cfg.readinessProbePeriodSeconds } ∧
    (mkDeploymentConfig cfg).livenessProbe =
      { initialDelaySeconds := int32cast cfg.livenessProbeInitialDelaySeconds
        timeoutSeconds := int32cast cfg.livenessProbeTimeoutSeconds
        periodSeconds := int32cast cfg.livenessProbePeriodSeconds } ∧
    (mkControllerWiring (mkServerSetup cfg)).deployHandlerFactory.deploymentConfig =
      mkDeploymentConfig cfg ∧
    (mkControllerWiring (mkServerSetup cfg)).updateHandlerFactory.deploymentConfig =
      mkDeploymentConfig cfg ∧
    (mkOperatorWiring (mkServerSetup cfg)).controllerFactory.factory.deploymentConfig =
      mkDeploymentConfig cfg :=
  ⟨rfl, rfl, rfl, rfl, rfl, rfl, rfl, rfl, rfl, rfl, rfl⟩

/-- Claim C7: all three shared informer factories (Kubernetes resources,
Function custom resources, Profile custom resources) are created with the
5-minute default resync interval. -/
theorem C7_resync_interval (cfg : BootstrapConfig) :
    (mkServerSetup cfg).kubeInformerFactory.resyncSeconds = 5 * 60 ∧
    (mkServerSetup cfg).faasInformerFactory.resyncSeconds = 5 * 60 ∧
    (mkServerSetup cfg).profileInformerFactory.resyncSeconds = 5 * 60 :=
  ⟨rfl, rfl, rfl⟩

/-- Claim C9: the Profile informer factory and the profile lister inside the
function factory are always scoped to the configured profiles namespace;
flipping the cluster-role setting never changes that scope; and every
profiles informer started in either mode watches exactly that namespace. -/
theorem C9_profile_scope (cfg : BootstrapConfig) (b : Bool) (operator : Bool)
    (syncs : Kind → Bool) :
    (mkServerSetup cfg).profileInformerFactory.nsScope =
      cfg.profilesNamespace ∧
    (mkServerSetup cfg).functionFactory.profileListerNamespace =
      cfg.profilesNamespace ∧
    (mkServerSetup { cfg with clusterRole := b }).profileInformerFactory.nsScope =
      (mkServerSetup cfg).profileInformerFactory.nsScope ∧
    ∀ f, Event.informerStart Kind.profiles f ∈
        mainTrace operator (mkServerSetup cfg) syncs →
      f.nsScope = cfg.profilesNamespace := by
  refine ⟨rfl, rfl, rfl, fun f h => ?_⟩
  rw [mainTrace_factory operator (mkServerSetup cfg) syncs Kind.profiles f h]
  rfl

/-- Claim C9, witness: the profile scoping evaluated on the sample
configuration, with a concrete profiles informer-start event from the
imperative-mode trace. -/
theorem C9_profile_scope_witness :
    (mkServerSetup cfgA).profileInformerFactory.nsScope = "openfaas" ∧
    ({ nsScope := "openfaas", resyncSeconds := 300 } :
      SharedInformerFactory).nsScope = "openfaas" :=
  ⟨(C9_profile_scope cfgA true false allSync).1,
    (C9_profile_scope cfgA true false allSync).2.2.2
      { nsScope := "openfaas", resyncSeconds := 300 } (by decide)⟩

/-- Claim C8, counterexample: at the instant exactly equal to the embedded
expiry date (the expiry check `time.Now().After(...)` is strict), a run with
a valid pro license proceeds to contact the cluster even though the current
time is not before the expiry date — so the claim's condition (a), "the
current time is before 2022-03-14 00:00:00 UTC", is not necessary for
startup as stated. -/
theorem C8_counterexample :
    mainPrologue demoExpiryUnixNano "LIC" "" (fun _ => none) loadA =
      StartOutcome.proceed tokenPro ∧
    ¬ demoExpiryUnixNano < demoExpiryUnixNano :=
  ⟨by decide, by decide⟩

/-- Claim C8, amended: the prologue of `main` terminates fatally before
contacting the cluster unless the current time is not after (at or before)
2022-03-14 00:00:00 UTC, a license is supplied via one of the two flags,
the effective license loads and verifies to a token, and the token's
product list contains "openfaas-pro"; and strictly after that date neither
mode can ever start. -/
theorem C8_license_gate (now : Int) (license licenseFile : String)
    (readFile : String → Option String)
    (loadLicenseToken : String → Option LicenseToken) :
    (demoExpiryUnixNano < now →
      mainPrologue now license licenseFile readFile loadLicenseToken =
        StartOutcome.fatalExpired) ∧
    (∀ token,
      mainPrologue now license licenseFile readFile loadLicenseToken =
        StartOutcome.proceed token →
      now ≤ demoExpiryUnixNano ∧
      (0 < license.length ∨ 0 < licenseFile.length) ∧
      (∃ lic, loadLicenseToken lic = some token) ∧
      hasProduct sku token.products = true) := by
  constructor
  · intro h
    rw [mainPrologue, if_pos h]
  · intro token h
    unfold mainPrologue at h
    by_cases h1 : demoExpiryUnixNano < now
    · rw [if_pos h1] at h
      cases h
    · rw [if_neg h1] at h
      by_cases h2 : license.length = 0 ∧ licenseFile.length = 0
      · rw [if_pos h2] at h
        cases h
      · rw [if_neg h2] at h
        have hb : 0 < license.length ∨ 0 < licenseFile.length := by
          rcases Nat.eq_zero_or_pos license.length with hl | hl
          · rcases Nat.eq_zero_or_pos licenseFile.length with hf | hf
            · exact absurd ⟨hl, hf⟩ h2
            · exact Or.inr hf
          · exact Or.inl hl
        by_cases h3 : 0 < licenseFile.length
        · simp only [if_pos h3] at h
          cases hr : readFile licenseFile with
          | none =>
            rw [hr] at h
            cases h
          | some res =>
            rw [hr] at h
            simp only at h
            by_cases h4 : res.trim.length = 0
            · rw [if_pos h4] at h
              cases h
            · rw [if_neg h4] at h
              cases hload : loadLicenseToken res.trim with
              | none =>
                simp only [hload] at h
                cases h
              | some t =>
                simp only [hload] at h
                by_cases h5 : hasProduct sku t.products = true
                · rw [if_pos h5] at h
                  injection h with ht
                  subst ht
                  exact ⟨le_of_not_lt h1, hb, ⟨res.trim, hload⟩, h5⟩
                · rw [if_neg h5] at h
                  cases h
        · simp only [if_neg h3] at h
          by_cases h4 : license.length = 0
          · rw [if_pos h4] at h
            cases h
          · rw [if_neg h4] at h
            cases hload : loadLicenseToken license with
            | none =>
              simp only [hload] at h
              cases h
            | some t =>
              simp only [hload] at h
              by_cases h5 : hasProduct sku t.products = true
              · rw [if_pos h5] at h
                injection h with ht
                subst ht
                exact ⟨le_of_not_lt h1, hb, ⟨license, hload⟩, h5⟩
              · rw [if_neg h5] at h
                cases h

/-- Claim C8, witness: strictly past the expiry date the prologue is fatal;
and on a concrete proceeding run at time 0 the amended necessary conditions
hold. -/
theorem C8_license_gate_witness :
    mainPrologue (demoExpiryUnixNano + 1) "LIC" "" (fun _ => none) loadA =
      StartOutcome.fatalExpired ∧
    ((0 : Int) ≤ demoExpiryUnixNano ∧
      (0 < "LIC".length ∨ 0 < "".length) ∧
      (∃ lic, loadA lic = some tokenPro) ∧
      hasProduct sku tokenPro.products = true) :=
  ⟨(C8_license_gate (demoExpiryUnixNano + 1) "LIC" "" (fun _ => none)
      loadA).1 (by decide),
    (C8_license_gate 0 "LIC" "" (fun _ => none) loadA).2 tokenPro (by decide)⟩

/-- A malformed integer string makes Go's Atoi return 0 with an error. -/
theorem goAtoi_of_malformed (s : String) (h : wellFormedInt s = false) :
    goAtoi s = (0, false) := by
  simp [goAtoi, h]

/-- Claim C10: a set, non-empty but malformed `prometheus_port` yields a
metrics query client with port 0 (the parse error is discarded); a set,
non-empty value is always passed through Atoi; and the defaults
`"prometheus"`/9090 apply exactly when the corresponding environment
variables are unset or empty. -/
theorem C10_prometheus_port (hostEnv portEnv : Option String) :
    (∀ v, portEnv = some v → 0 < v.length → wellFormedInt v = false →
      (mkPrometheusQuery hostEnv portEnv).port = 0) ∧
    (∀ v, portEnv = some v → 0 < v.length →
      (mkPrometheusQuery hostEnv portEnv).port = (goAtoi v).1) ∧
    (portEnv = none ∨ portEnv = some "" →
      (mkPrometheusQuery hostEnv portEnv).port = 9090) ∧
    (hostEnv = none ∨ hostEnv = some "" →
      (mkPrometheusQuery hostEnv portEnv).host = "prometheus") ∧
    (∀ v, hostEnv = some v → 0 < v.length →
      (mkPrometheusQuery hostEnv portEnv).host = v) := by
  refine ⟨?_, ?_, ?_, ?_, ?_⟩
  · intro v hv hlen hmal
    subst hv
    simp [mkPrometheusQuery, hlen, goAtoi_of_malformed v hmal]
  · intro v hv hlen
    subst hv
    simp [mkPrometheusQuery, hlen]
  · rintro (hp | hp) <;> subst hp <;> simp [mkPrometheusQuery]
  · rintro (hh | hh) <;> subst hh <;> simp [mkPrometheusQuery]
  · intro v hv hlen
    subst hv
    simp [mkPrometheusQuery, hlen]

/-- Claim C10, witness: with `prometheus_host` set empty and
`prometheus_port` set to the malformed value "80a", the client is built
with the default host and port 0. -/
theorem C10_prometheus_port_witness :
    (mkPrometheusQuery (some "") (some "80a")).port = 0 ∧
    (mkPrometheusQuery (some "") (some "80a")).host = "prometheus" :=
  ⟨(C10_prometheus_port (some "") (some "80a")).1 "80a" rfl (by decide)
      (by decide),
    (C10_prometheus_port (some "") (some "80a")).2.2.2.1 (Or.inr rfl)⟩

end FaasNetes
